import Mathlib

/-!
Verification of the device/session registration core of the iris chat client.

The definitions below are a shallow embedding of the TypeScript sources:
the memoized manager initialization (DeviceManagerService.ts,
DelegateManagerService.ts), the session event handlers (dmEventHandler.ts
and the delegate-device module), the registration check
(DeviceRegistrationService.ts together with nostrHelpers.ts), the registry
merge operations, the localForage storage adapter (session/StorageAdapter.ts),
the delegate send path, and the chat initialization hook (useChatInitState).
Library functions of the external nostr-double-ratchet package that the
sources call are modelled from the specification and are marked as such in
their doc comments.
-/

namespace Iris

/-! ## Memoized manager initialization (DeviceManagerService / DelegateManagerService) -/

/-- Program counter of one invocation of the initializer body
(initializeDeviceManager / initializeDelegateManager).  After the getter
starts a body, the body first constructs the manager and installs it into
the module-level instance variable, and then its init() call opens the
registry subscription and, on a fresh store, generates and persists the
identity keypair. -/
inductive BodyPC
  | running
  | installed
  | done
deriving DecidableEq, Repr

/-- Module-level state of one manager service: the initializer bodies ever
started (in start order), the memoized in-flight promise (index of the body
it belongs to), the installed instance (index of the body that constructed
it), the identity keypairs persisted to the store (tagged by the creating
body index), and the number of registry subscriptions opened. -/
structure MgrState where
  bodies : List BodyPC
  promiseIdx : Option Nat
  instanceIdx : Option Nat
  persistedKeys : List Nat
  subscriptions : Nat
deriving DecidableEq, Repr

/-- A fresh store: nothing initialized, no keypair persisted. -/
def MgrState.fresh : MgrState := ⟨[], none, none, [], 0⟩

/-- One call to the async getter (getDeviceManager / getDelegateManager).
The getter body runs synchronously on the event loop through the check of
the instance variable, the check of initPromise, and the assignment
initPromise = initializeX(): the called initializer only yields at its
first await, after which control returns to the getter, which stores the
promise before anything else can run.  The whole check-and-assign is
therefore a single atomic step.  Returns the new state together with the
index of the body whose promise or instance the caller receives. -/
def getManagerStep (s : MgrState) : MgrState × Nat :=
  match s.instanceIdx with
  | some i => (s, i)
  | none =>
    match s.promiseIdx with
    | some p => (s, p)
    | none =>
      let idx := s.bodies.length
      ({ s with bodies := s.bodies ++ [BodyPC.running], promiseIdx := some idx }, idx)

/-- Asynchronous body step: the initializer constructs the manager and
assigns it to the module-level instance variable (this happens before its
init() completes, exactly as in the source). -/
def installStep (i : Nat) (s : MgrState) : MgrState :=
  if s.bodies.get? i = some BodyPC.running then
    { s with bodies := s.bodies.set i BodyPC.installed, instanceIdx := some i }
  else s

/-- Asynchronous body step: the manager's init() completes.  It opens the
registry subscription and, on a fresh store, generates and persists exactly
one identity keypair (tagged here by the body index, so distinct bodies
would persist distinct identities). -/
def finishInitStep (i : Nat) (s : MgrState) : MgrState :=
  if s.bodies.get? i = some BodyPC.installed then
    { s with bodies := s.bodies.set i BodyPC.done,
             persistedKeys := s.persistedKeys ++ [i],
             subscriptions := s.subscriptions + 1 }
  else s

/-- An event-loop action: a getter call, or a resumption of initializer
body i at one of its suspension points. -/
inductive InitAct
  | call
  | install (i : Nat)
  | finish (i : Nat)
deriving DecidableEq, Repr

/-- Run an arbitrary interleaving of getter calls and body resumptions,
collecting the body index returned to each getter caller. -/
def runInit : List InitAct → MgrState → MgrState × List Nat
  | [], s => (s, [])
  | InitAct.call :: rest, s =>
    let sr := getManagerStep s
    let tail := runInit rest sr.1
    (tail.1, sr.2 :: tail.2)
  | InitAct.install i :: rest, s => runInit rest (installStep i s)
  | InitAct.finish i :: rest, s => runInit rest (finishInitStep i s)

/-- Reachability invariant: from a fresh store the service state is always
one of four shapes, all with at most one initializer body. -/
def mgrReach (s : MgrState) : Prop :=
  s = MgrState.fresh ∨
  s = ⟨[BodyPC.running], some 0, none, [], 0⟩ ∨
  s = ⟨[BodyPC.installed], some 0, some 0, [], 0⟩ ∨
  s = ⟨[BodyPC.done], some 0, some 0, [0], 1⟩

lemma mgrReach_fresh : mgrReach MgrState.fresh := Or.inl rfl

lemma mgrReach_getManager {s : MgrState} (h : mgrReach s) :
    mgrReach (getManagerStep s).1 ∧ (getManagerStep s).2 = 0 := by
  rcases h with rfl | rfl | rfl | rfl <;>
    simp [getManagerStep, MgrState.fresh, mgrReach]

lemma mgrReach_install {s : MgrState} (i : Nat) (h : mgrReach s) :
    mgrReach (installStep i s) := by
  rcases h with rfl | rfl | rfl | rfl <;> cases i <;>
    simp [installStep, MgrState.fresh, mgrReach]

lemma mgrReach_finish {s : MgrState} (i : Nat) (h : mgrReach s) :
    mgrReach (finishInitStep i s) := by
  rcases h with rfl | rfl | rfl | rfl <;> cases i <;>
    simp [finishInitStep, MgrState.fresh, mgrReach]

lemma runInit_reach (acts : List InitAct) (s : MgrState) (h : mgrReach s) :
    mgrReach (runInit acts s).1 ∧ ∀ r ∈ (runInit acts s).2, r = 0 := by
  induction acts generalizing s with
  | nil => simpa [runInit] using h
  | cons a rest ih =>
    cases a with
    | call =>
      obtain ⟨h1, h2⟩ := mgrReach_getManager h
      obtain ⟨h3, h4⟩ := ih _ h1
      refine ⟨by simpa [runInit] using h3, ?_⟩
      intro r hr
      simp only [runInit, List.mem_cons] at hr
      rcases hr with rfl | hr
      · exact h2
      · exact h4 r hr
    | install i =>
      simpa [runInit] using ih _ (mgrReach_install i h)
    | finish i =>
      simpa [runInit] using ih _ (mgrReach_finish i h)

/-- C1: on a fresh store, every interleaving of concurrent calls to the
memoized async getter with the steps of the initializer bodies starts at
most one initializer body, returns the same body (hence the same manager
instance and identity public key, body 0) to every caller, opens at most
one subscription, persists at most one identity keypair, and persists
exactly one keypair (that of body 0) once the single body completes. -/
theorem memoized_init_single_identity (acts : List InitAct) :
    (runInit acts MgrState.fresh).1.bodies.length ≤ 1 ∧
    (runInit acts MgrState.fresh).1.persistedKeys.length ≤ 1 ∧
    (runInit acts MgrState.fresh).1.subscriptions ≤ 1 ∧
    (∀ r ∈ (runInit acts MgrState.fresh).2, r = 0) ∧
    ((runInit acts MgrState.fresh).1.bodies.get? 0 = some BodyPC.done →
      (runInit acts MgrState.fresh).1.persistedKeys = [0] ∧
      (runInit acts MgrState.fresh).1.subscriptions = 1) := by
  obtain ⟨hreach, hres⟩ := runInit_reach acts MgrState.fresh mgrReach_fresh
  rcases hreach with h | h | h | h <;>
    rw [h] <;> simp [MgrState.fresh] <;> exact hres

/-- Witness for C1 at a concrete interleaving: two calls race, the body
installs the instance, a third call arrives, init finishes, a fourth call
arrives; all four calls get body 0 and exactly one keypair is persisted. -/
theorem memoized_init_single_identity_witness :
    (runInit [InitAct.call, InitAct.call, InitAct.install 0, InitAct.call,
        InitAct.finish 0, InitAct.call] MgrState.fresh).1.bodies.length ≤ 1 ∧
    (runInit [InitAct.call, InitAct.call, InitAct.install 0, InitAct.call,
        InitAct.finish 0, InitAct.call] MgrState.fresh).1.persistedKeys.length ≤ 1 ∧
    (runInit [InitAct.call, InitAct.call, InitAct.install 0, InitAct.call,
        InitAct.finish 0, InitAct.call] MgrState.fresh).1.subscriptions ≤ 1 ∧
    (∀ r ∈ (runInit [InitAct.call, InitAct.call, InitAct.install 0, InitAct.call,
        InitAct.finish 0, InitAct.call] MgrState.fresh).2, r = 0) ∧
    ((runInit [InitAct.call, InitAct.call, InitAct.install 0, InitAct.call,
        InitAct.finish 0, InitAct.call] MgrState.fresh).1.bodies.get? 0 = some BodyPC.done →
      (runInit [InitAct.call, InitAct.call, InitAct.install 0, InitAct.call,
          InitAct.finish 0, InitAct.call] MgrState.fresh).1.persistedKeys = [0] ∧
      (runInit [InitAct.call, InitAct.call, InitAct.install 0, InitAct.call,
          InitAct.finish 0, InitAct.call] MgrState.fresh).1.subscriptions = 1) :=
  memoized_init_single_identity
    [InitAct.call, InitAct.call, InitAct.install 0, InitAct.call,
     InitAct.finish 0, InitAct.call]

/-! ## Session event handlers (dmEventHandler.ts and the delegate module) -/

/-- A decrypted message event (Rumor) as consumed by the session event
callbacks. -/
structure Rumor where
  pubkey : String
  kind : Nat
  content : String
  tags : List (List String)
deriving DecidableEq, Repr

/-- Modelled from the spec: the tag helper getTag of src/utils/tagUtils.ts
(the file itself is not among the provided sources) returns the value
(second element) of the first tag whose name (first element) matches. -/
def getTag (name : String) (tags : List (List String)) : Option String :=
  (tags.find? (fun t => t.head? = some name)).bind (fun t => t.get? 1)

/-- Modelled from the spec: KIND_CHANNEL_CREATE of src/utils/constants (the
file is not among the provided sources); its numeric value is irrelevant to
the properties proved here. -/
def KIND_CHANNEL_CREATE : Nat := 40

/-- A group record as stored in the groups store. -/
structure Group where
  id : String
  name : String
  groupDescription : String
  picture : String
  members : List String
  createdAt : Nat
deriving DecidableEq, Repr

/-- The two stores the handler can touch: the groups store (keyed records)
and the private-message store (recorded as the sequence of upsert calls
(chatId, userPublicKey, event)). -/
structure ChatStores where
  groups : List (String × Group)
  messages : List (String × String × Rumor)
deriving DecidableEq, Repr

/-- Outcome of one delivery to the session event callback attached by
attachSessionEventListener. -/
inductive DmAction
  | missingPublicKey
  | blockedMuted
  | groupCreated (g : Group)
  | groupCreateParseFailed
  | groupMessage (label : String) (placeholder : Option Group) (ev : Rumor)
  | droppedNoRecipient
  | directMessage (chatId : String) (fromUs : Bool) (ev : Rumor)
deriving DecidableEq, Repr

/-- The isFromUs check shared verbatim by both listeners: the event's signed
pubkey equals the owner key, or it equals this device's delegate identity
key (when delegate credentials exist), or the session peer resolved by the
SessionManager equals the owner key (self-sync session). -/
def selfOriginatedB (owner : String) (delegatePubkey : Option String)
    (evPubkey sessionPeer : String) : Bool :=
  decide (evPubkey = owner) ||
    (match delegatePubkey with
     | some d => decide (evPubkey = d)
     | none => false) ||
  decide (sessionPeer = owner)

/-- The same check as a proposition, in the words of the claim. -/
def selfOriginated (owner : String) (delegatePubkey : Option String)
    (evPubkey sessionPeer : String) : Prop :=
  evPubkey = owner ∨ (∃ d, delegatePubkey = some d ∧ evPubkey = d) ∨
    sessionPeer = owner

lemma selfOriginatedB_iff (owner : String) (delegatePubkey : Option String)
    (evPubkey sessionPeer : String) :
    selfOriginatedB owner delegatePubkey evPubkey sessionPeer = true ↔
      selfOriginated owner delegatePubkey evPubkey sessionPeer := by
  cases delegatePubkey <;>
    simp [selfOriginatedB, selfOriginated, or_comm, or_left_comm, or_assoc]

/-- The session event callback of attachSessionEventListener in
src/utils/dmEventHandler.ts as a pure classification of one delivered
event.  publicKey is the owner key from the user store (empty when absent),
delegatePubkey the devicePublicKey of the delegate credentials (none on a
main device), muted the owner's muted set, groupIds the ids present in the
groups store, now the current time for the synthesized placeholder group,
parseGroup stands for JSON.parse of the event content, and pubKey is the
session peer pubkey already resolved by the SessionManager.  The p-tag
check is the JavaScript falsy one (if not pTag return): a missing p-tag
and an empty-string p-tag value are dropped alike. -/
def classifySessionEvent (parseGroup : String → Option Group)
    (publicKey : String) (delegatePubkey : Option String)
    (muted : List String) (groupIds : List String) (now : Nat)
    (ev : Rumor) (pubKey : String) : DmAction :=
  if publicKey = "" then DmAction.missingPublicKey
  else if pubKey ∈ muted then DmAction.blockedMuted
  else
    let lTag := getTag "l" ev.tags
    if ev.kind = KIND_CHANNEL_CREATE ∧ lTag.isSome then
      match parseGroup ev.content with
      | some g => DmAction.groupCreated g
      | none => DmAction.groupCreateParseFailed
    else
      match lTag with
      | some l =>
        let placeholder :=
          if l ∈ groupIds then none
          else some { id := l, name := "Group " ++ l.take 8, groupDescription := "",
                      picture := "", members := [publicKey], createdAt := now }
        DmAction.groupMessage l placeholder ev
      | none =>
        match getTag "p" ev.tags with
        | none => DmAction.droppedNoRecipient
        | some p =>
          if p = "" then DmAction.droppedNoRecipient
          else
            let fromUs := selfOriginatedB publicKey delegatePubkey ev.pubkey pubKey
            let chatId := if fromUs then p else pubKey
            let normalized := if fromUs then { ev with pubkey := publicKey } else ev
            DmAction.directMessage chatId fromUs normalized

/-- Store effect of the classified outcome: group creation and the group
placeholder touch the groups store, group messages and direct messages
upsert into the private-message store; every other outcome returns from the
callback without touching either store. -/
def applyDmAction (publicKey : String) (st : ChatStores) : DmAction → ChatStores
  | DmAction.missingPublicKey => st
  | DmAction.blockedMuted => st
  | DmAction.groupCreated g => { st with groups := st.groups ++ [(g.id, g)] }
  | DmAction.groupCreateParseFailed => st
  | DmAction.groupMessage l placeholder ev =>
    let groups := match placeholder with
      | some g => st.groups ++ [(g.id, g)]
      | none => st.groups
    { groups := groups, messages := st.messages ++ [(l, publicKey, ev)] }
  | DmAction.droppedNoRecipient => st
  | DmAction.directMessage chatId _ ev =>
    { st with messages := st.messages ++ [(chatId, publicKey, ev)] }

/-- One full delivery to the session event callback: classify, then apply
the store effect. -/
def handleSessionEvent (parseGroup : String → Option Group)
    (publicKey : String) (delegatePubkey : Option String)
    (muted : List String) (groupIds : List String) (now : Nat)
    (ev : Rumor) (pubKey : String) (st : ChatStores) : ChatStores :=
  applyDmAction publicKey st
    (classifySessionEvent parseGroup publicKey delegatePubkey muted groupIds now ev pubKey)

/-- Outcome of one delivery to the delegate-device event callback attached
by attachDelegateEventListener. -/
inductive DelegateAction
  | droppedNoRecipient
  | droppedEmptyChatId
  | message (chatId : String) (fromUs : Bool) (ev : Rumor)
deriving DecidableEq, Repr

/-- The event callback of attachDelegateEventListener in the delegate-device
module: drop a falsy p-tag (the missing and the empty-string value alike,
the JavaScript if-not-pTag-return check), compute the same three-way
isFromUs check, choose the conversation id, drop a falsy chat id, and
upsert the (for own messages owner-normalized) event. -/
def classifyDelegateEvent (ownerPublicKey : String) (delegatePubkey : Option String)
    (ev : Rumor) (sessionPubkey : String) : DelegateAction :=
  match getTag "p" ev.tags with
  | none => DelegateAction.droppedNoRecipient
  | some p =>
    if p = "" then DelegateAction.droppedNoRecipient
    else
      let fromUs := selfOriginatedB ownerPublicKey delegatePubkey ev.pubkey sessionPubkey
      let chatId := if fromUs then p else sessionPubkey
      if chatId = "" then DelegateAction.droppedEmptyChatId
      else
        DelegateAction.message chatId fromUs
          (if fromUs then { ev with pubkey := ownerPublicKey } else ev)

/-- C2: on both listeners, a delivered event is classified self-originated
exactly when its signed pubkey equals the owner key, or equals this
device's delegate identity key, or the resolved session peer equals the
owner key; a self-originated event is filed under its p-tag recipient and
any other event under the resolved session peer; an event with neither a
p-tag nor a group label tag is dropped - where both handlers test the
p-tag with the JavaScript falsy check, so a missing p-tag and an
empty-string p-tag value are dropped alike. -/
theorem self_origin_classification
    (parseGroup : String → Option Group)
    (publicKey : String) (delegatePubkey : Option String)
    (muted : List String) (groupIds : List String) (now : Nat)
    (ev : Rumor) (pubKey : String)
    (hpk : publicKey ≠ "") (hmute : pubKey ∉ muted)
    (hl : getTag "l" ev.tags = none) :
    (getTag "p" ev.tags = none ∨ getTag "p" ev.tags = some "" →
      classifySessionEvent parseGroup publicKey delegatePubkey muted groupIds now ev pubKey =
        DmAction.droppedNoRecipient ∧
      classifyDelegateEvent publicKey delegatePubkey ev pubKey =
        DelegateAction.droppedNoRecipient) ∧
    (∀ p, getTag "p" ev.tags = some p → p ≠ "" →
      (selfOriginatedB publicKey delegatePubkey ev.pubkey pubKey = true ↔
        selfOriginated publicKey delegatePubkey ev.pubkey pubKey) ∧
      classifySessionEvent parseGroup publicKey delegatePubkey muted groupIds now ev pubKey =
        DmAction.directMessage
          (if selfOriginatedB publicKey delegatePubkey ev.pubkey pubKey then p else pubKey)
          (selfOriginatedB publicKey delegatePubkey ev.pubkey pubKey)
          (if selfOriginatedB publicKey delegatePubkey ev.pubkey pubKey
            then { ev with pubkey := publicKey } else ev) ∧
      ((if selfOriginatedB publicKey delegatePubkey ev.pubkey pubKey then p else pubKey) ≠ "" →
        classifyDelegateEvent publicKey delegatePubkey ev pubKey =
          DelegateAction.message
            (if selfOriginatedB publicKey delegatePubkey ev.pubkey pubKey then p else pubKey)
            (selfOriginatedB publicKey delegatePubkey ev.pubkey pubKey)
            (if selfOriginatedB publicKey delegatePubkey ev.pubkey pubKey
              then { ev with pubkey := publicKey } else ev))) := by
  constructor
  · rintro (hp | hp)
    · constructor
      · simp [classifySessionEvent, hpk, hmute, hl, hp]
      · simp [classifyDelegateEvent, hp]
    · constructor
      · simp [classifySessionEvent, hpk, hmute, hl, hp]
      · simp [classifyDelegateEvent, hp]
  · intro p hp hpe
    refine ⟨selfOriginatedB_iff _ _ _ _, ?_, ?_⟩
    · simp [classifySessionEvent, hpk, hmute, hl, hp, hpe]
    · intro hne
      simp only [classifyDelegateEvent, hp, if_neg hpe, if_neg hne]

/-- Witness for C2: an event signed by the owner with p-tag recipient
friend, delivered on a session resolved to peer, is classified
self-originated and filed under friend by both listeners. -/
theorem self_origin_classification_witness :
    classifySessionEvent (fun _ => none) "owner" (some "dev") [] [] 0
        ⟨"owner", 1, "hi", [["p", "friend"]]⟩ "peer" =
      DmAction.directMessage "friend" true ⟨"owner", 1, "hi", [["p", "friend"]]⟩ ∧
    classifyDelegateEvent "owner" (some "dev")
        ⟨"owner", 1, "hi", [["p", "friend"]]⟩ "peer" =
      DelegateAction.message "friend" true ⟨"owner", 1, "hi", [["p", "friend"]]⟩ := by
  have h := (self_origin_classification (fun _ => none) "owner" (some "dev") [] [] 0
      ⟨"owner", 1, "hi", [["p", "friend"]]⟩ "peer" (by decide) (by simp) (by decide)).2
      "friend" (by decide) (by decide)
  have hb : selfOriginatedB "owner" (some "dev") "owner" "peer" = true := by decide
  obtain ⟨-, h1, h2⟩ := h
  rw [hb] at h1 h2
  exact ⟨by simpa using h1, by simpa using h2 (by simp)⟩

/-- C10: an event whose resolved session peer is muted is blocked before
any classification, leaving the groups store and the private-message store
unchanged. -/
theorem muted_sender_suppressed
    (parseGroup : String → Option Group)
    (publicKey : String) (delegatePubkey : Option String)
    (muted : List String) (groupIds : List String) (now : Nat)
    (ev : Rumor) (pubKey : String) (st : ChatStores)
    (hpk : publicKey ≠ "") (hmute : pubKey ∈ muted) :
    classifySessionEvent parseGroup publicKey delegatePubkey muted groupIds now ev pubKey =
      DmAction.blockedMuted ∧
    handleSessionEvent parseGroup publicKey delegatePubkey muted groupIds now ev pubKey st = st := by
  constructor
  · simp [classifySessionEvent, hpk, hmute]
  · simp [handleSessionEvent, classifySessionEvent, applyDmAction, hpk, hmute]

/-- Witness for C10: an event from muted peer mallory leaves concrete
non-empty stores untouched. -/
theorem muted_sender_suppressed_witness :
    classifySessionEvent (fun _ => none) "owner" none ["mallory"] [] 0
        ⟨"mallory", 1, "hi", [["p", "owner"]]⟩ "mallory" =
      DmAction.blockedMuted ∧
    handleSessionEvent (fun _ => none) "owner" none ["mallory"] [] 0
        ⟨"mallory", 1, "hi", [["p", "owner"]]⟩ "mallory"
        ⟨[], [("x", "owner", ⟨"x", 1, "old", []⟩)]⟩ =
      ⟨[], [("x", "owner", ⟨"x", 1, "old", []⟩)]⟩ :=
  muted_sender_suppressed (fun _ => none) "owner" none ["mallory"] [] 0
    ⟨"mallory", 1, "hi", [["p", "owner"]]⟩ "mallory"
    ⟨[], [("x", "owner", ⟨"x", 1, "old", []⟩)]⟩ (by decide) (by simp)

/-! ## Registration check (DeviceRegistrationService.ts with nostrHelpers.ts) -/

/-- One authorized device entry of the registry document. -/
structure DeviceEntry where
  identityPubkey : String
  createdAt : Nat
deriving DecidableEq, Repr

/-- Modelled from the spec: the ApplicationKeys registry document of the
nostr-double-ratchet library (the library is not among the provided
sources): the active device entries together with the revocation entries
(identityPubkey, revokedAt). -/
structure ApplicationKeysDoc where
  devices : List DeviceEntry
  revoked : List (String × Nat)
deriving DecidableEq, Repr

/-- The 5000 ms timeout passed to ApplicationKeys.waitFor by
isDeviceRegistered. -/
def waitForTimeoutMs : Nat := 5000

/-- The 10000 ms default timeout of waitForRelayConnection in
nostrHelpers.ts. -/
def relayWaitTimeoutMs : Nat := 10000

/-- Modelled from the spec: ApplicationKeys.waitFor (library code, not
among the provided sources) is a bounded remote fetch.  It resolves with
the first matching registry document the transport delivers within the
timeout, at that document's arrival time, or with none exactly at the
timeout; it never rejects.  Delivered documents are given as the delivery
sequence with arrival times in ms. -/
def applicationKeysWaitFor (events : List (Nat × ApplicationKeysDoc))
    (timeoutMs : Nat) : Option ApplicationKeysDoc × Nat :=
  match events.find? (fun e => e.1 ≤ timeoutMs) with
  | some e => (some e.2, e.1)
  | none => (none, timeoutMs)

/-- Environment of one isDeviceRegistered call: whether the two manager
singletons are already memoized, when the first relay connects (none when
no relay ever connects within the wait), this device's delegate identity
pubkey, the local registry cache (deviceManager.getOwnDevices()), the owner
public key from the user store (empty when logged out), and the registry
documents the transport delivers with their arrival times. -/
structure RegCheckEnv where
  managersReady : Bool
  relayConnectDelay : Option Nat
  delegatePubkey : String
  localDevices : List DeviceEntry
  ownerPubkey : String
  remoteEvents : List (Nat × ApplicationKeysDoc)
deriving DecidableEq, Repr

/-- Result of one isDeviceRegistered call: the resolved boolean, the time
at which the promise resolves (ms from the call), and whether a remote
fetch was issued. -/
structure RegCheckResult where
  value : Bool
  timeMs : Nat
  remoteFetchIssued : Bool
deriving DecidableEq, Repr

/-- Time spent awaiting getDeviceManager before isDeviceRegistered can run
its checks: zero once the managers are memoized; otherwise the cold-start
initialization runs waitForRelayConnection, which polls until the first
relay connects and gives up after 10 s, proceeding anyway. -/
def managerInitTimeMs (env : RegCheckEnv) : Nat :=
  if env.managersReady then 0
  else match env.relayConnectDelay with
    | some t => min t relayWaitTimeoutMs
    | none => relayWaitTimeoutMs

/-- isDeviceRegistered from DeviceRegistrationService.ts.  The whole body
is wrapped in try/catch returning false, so the promise always resolves
with a boolean and never rejects.  Order as in the source: await the
manager singletons (a cold-start initialization reads the user store and
throws without an owner key, caught as false, before the relay wait); check
the local cache; check the owner key; run the bounded remote fetch and, on
a hit, look this device up in the delivered document. -/
def isDeviceRegisteredModel (env : RegCheckEnv) : RegCheckResult :=
  if env.managersReady = false ∧ env.ownerPubkey = "" then
    { value := false, timeMs := 0, remoteFetchIssued := false }
  else
    let initTime := managerInitTimeMs env
    if env.localDevices.any (fun d => d.identityPubkey == env.delegatePubkey) then
      { value := true, timeMs := initTime, remoteFetchIssued := false }
    else if env.ownerPubkey = "" then
      { value := false, timeMs := initTime, remoteFetchIssued := false }
    else
      match applicationKeysWaitFor env.remoteEvents waitForTimeoutMs with
      | (none, t) => { value := false, timeMs := initTime + t, remoteFetchIssued := true }
      | (some doc, t) =>
        { value := doc.devices.any (fun d => d.identityPubkey == env.delegatePubkey),
          timeMs := initTime + t, remoteFetchIssued := true }

/-- C4: whenever this device's identity pubkey is already in the local
registry cache (and an owner key exists, without which there is no cache),
isDeviceRegistered resolves true, issues no remote fetch, and spends only
the manager-initialization time, never the remote-check timeout; with the
managers already memoized it resolves immediately. -/
theorem fast_path_registration (env : RegCheckEnv)
    (hpk : env.ownerPubkey ≠ "")
    (hloc : env.localDevices.any
      (fun d => d.identityPubkey == env.delegatePubkey) = true) :
    (isDeviceRegisteredModel env).value = true ∧
    (isDeviceRegisteredModel env).remoteFetchIssued = false ∧
    (isDeviceRegisteredModel env).timeMs = managerInitTimeMs env ∧
    (env.managersReady = true → (isDeviceRegisteredModel env).timeMs = 0) := by
  simp [isDeviceRegisteredModel, hpk, hloc]
  intro h
  simp [managerInitTimeMs, h]

/-- Witness for C4: a registered device with memoized managers resolves
true at time 0 with no fetch, even though the transport would answer only
after 4 s. -/
theorem fast_path_registration_witness :
    (isDeviceRegisteredModel
        ⟨true, some 0, "dev", [⟨"dev", 100⟩], "owner", [(4000, ⟨[], []⟩)]⟩).value = true ∧
    (isDeviceRegisteredModel
        ⟨true, some 0, "dev", [⟨"dev", 100⟩], "owner", [(4000, ⟨[], []⟩)]⟩).remoteFetchIssued
      = false ∧
    (isDeviceRegisteredModel
        ⟨true, some 0, "dev", [⟨"dev", 100⟩], "owner", [(4000, ⟨[], []⟩)]⟩).timeMs
      = managerInitTimeMs ⟨true, some 0, "dev", [⟨"dev", 100⟩], "owner", [(4000, ⟨[], []⟩)]⟩ ∧
    ((⟨true, some 0, "dev", [⟨"dev", 100⟩], "owner",
        [(4000, ⟨[], []⟩)]⟩ : RegCheckEnv).managersReady = true →
      (isDeviceRegisteredModel
        ⟨true, some 0, "dev", [⟨"dev", 100⟩], "owner", [(4000, ⟨[], []⟩)]⟩).timeMs = 0) :=
  fast_path_registration ⟨true, some 0, "dev", [⟨"dev", 100⟩], "owner", [(4000, ⟨[], []⟩)]⟩
    (by decide) (by decide)

/-- Counterexample to C3 as stated: a cold-start isDeviceRegistered call
with no relay ever connecting and no events delivered resolves false only
after 15000 ms - the 10 s relay-connection wait inside manager
initialization plus the 5 s remote-check timeout - which is not within the
5 s remote-check timeout plus a small epsilon (here 1 s). -/
theorem registration_timeout_counterexample :
    (isDeviceRegisteredModel ⟨false, none, "dev", [], "owner", []⟩).value = false ∧
    (isDeviceRegisteredModel ⟨false, none, "dev", [], "owner", []⟩).timeMs = 15000 ∧
    ¬ (isDeviceRegisteredModel ⟨false, none, "dev", [], "owner", []⟩).timeMs ≤
        waitForTimeoutMs + 1000 := by
  refine ⟨by decide, by decide, by decide⟩

/-- C3 amended: when the device is not in the local cache and the
transport delivers no matching events at all, isDeviceRegistered still
resolves - to false - and never throws; once the managers are memoized it
resolves within the 5 s remote-check timeout, and in the worst cold-start
case within 15 s (the 10 s relay-connection wait plus the 5 s remote-check
timeout); it never remains pending. -/
theorem registration_check_times_out_false (env : RegCheckEnv)
    (hloc : env.localDevices.any
      (fun d => d.identityPubkey == env.delegatePubkey) = false)
    (hnoev : env.remoteEvents = []) :
    (isDeviceRegisteredModel env).value = false ∧
    (isDeviceRegisteredModel env).timeMs ≤ relayWaitTimeoutMs + waitForTimeoutMs ∧
    (env.managersReady = true →
      (isDeviceRegisteredModel env).timeMs ≤ waitForTimeoutMs) := by
  have hinit : managerInitTimeMs env ≤ relayWaitTimeoutMs := by
    unfold managerInitTimeMs
    split
    · omega
    · cases env.relayConnectDelay <;> simp [relayWaitTimeoutMs]
  have hinit0 : env.managersReady = true → managerInitTimeMs env = 0 := by
    intro h
    simp [managerInitTimeMs, h]
  by_cases hpk : env.ownerPubkey = ""
  · by_cases hmr : env.managersReady
    · refine ⟨?_, ?_, ?_⟩ <;>
        simp [isDeviceRegisteredModel, hpk, hmr, hloc, hinit0 hmr, waitForTimeoutMs]
    · refine ⟨?_, ?_, ?_⟩ <;>
        simp_all [isDeviceRegisteredModel, hpk, hloc, relayWaitTimeoutMs, waitForTimeoutMs]
  · refine ⟨?_, ?_, ?_⟩
    · simp [isDeviceRegisteredModel, hpk, hloc, hnoev, applicationKeysWaitFor]
    · have h10 : managerInitTimeMs env ≤ 10000 := by
        simpa [relayWaitTimeoutMs] using hinit
      simp [isDeviceRegisteredModel, hpk, hloc, hnoev, applicationKeysWaitFor,
        waitForTimeoutMs, relayWaitTimeoutMs]
      omega
    · intro hmr
      simp [isDeviceRegisteredModel, hpk, hloc, hnoev, applicationKeysWaitFor,
        hinit0 hmr]

/-- Witness for C3 amended: a warm call with nothing in the cache and a
silent transport resolves false at exactly the 5 s timeout. -/
theorem registration_check_times_out_false_witness :
    (isDeviceRegisteredModel ⟨true, some 0, "dev", [], "owner", []⟩).value = false ∧
    (isDeviceRegisteredModel ⟨true, some 0, "dev", [], "owner", []⟩).timeMs ≤
      relayWaitTimeoutMs + waitForTimeoutMs ∧
    ((⟨true, some 0, "dev", [], "owner", []⟩ : RegCheckEnv).managersReady = true →
      (isDeviceRegisteredModel ⟨true, some 0, "dev", [], "owner", []⟩).timeMs ≤
        waitForTimeoutMs) :=
  registration_check_times_out_false ⟨true, some 0, "dev", [], "owner", []⟩
    (by decide) (by decide)

/-! ## Registry merge and join (DeviceRegistrationService.ts with the
registry operations of the library modelled from the spec) -/

/-- The identity pubkeys revoked in a registry document. -/
def revokedPubkeys (doc : ApplicationKeysDoc) : List String :=
  doc.revoked.map Prod.fst

/-- Modelled from the spec: the revocation set after merging a remote
document into the local cache - the union of both revocation lists, keyed
by identityPubkey. -/
def mergedRevoked (localDoc remote : ApplicationKeysDoc) : List (String × Nat) :=
  localDoc.revoked ++
    remote.revoked.filter (fun r => decide (r.1 ∉ localDoc.revoked.map Prod.fst))

/-- Modelled from the spec: mergeRemote / setApplicationKeys of the Device
Registry (library code, not among the provided sources).  The remote
document replaces the local cache wholesale (last-publish-wins at the
document level), except that a revoke entry from either side takes
precedence over a conflicting add entry for the same identityPubkey, so a
revoked identity is never re-admitted by stale add data. -/
def mergeRemote (localDoc remote : ApplicationKeysDoc) : ApplicationKeysDoc :=
  { devices := remote.devices.filter
      (fun d => decide (d.identityPubkey ∉ (mergedRevoked localDoc remote).map Prod.fst)),
    revoked := mergedRevoked localDoc remote }

/-- Modelled from the spec: DeviceRegistry.addDevice inserts or overwrites
by identityPubkey and marks the registry dirty for publish. -/
def addDevice (doc : ApplicationKeysDoc) (entry : DeviceEntry) : ApplicationKeysDoc :=
  { doc with devices :=
      entry ::
        doc.devices.filter (fun d => decide (d.identityPubkey ≠ entry.identityPubkey)) }

/-- addDeviceToExistingList from DeviceRegistrationService.ts: merge the
remote document into the local cache first (setApplicationKeys), then add
this device, then publish the resulting document. -/
def addDeviceToExistingList (localDoc remote : ApplicationKeysDoc)
    (selfPubkey : String) (now : Nat) : ApplicationKeysDoc :=
  addDevice (mergeRemote localDoc remote) ⟨selfPubkey, now⟩

lemma mergedRevoked_subset (localDoc remote : ApplicationKeysDoc) (x : String)
    (h : x ∈ (mergedRevoked localDoc remote).map Prod.fst) :
    x ∈ revokedPubkeys localDoc ∨ x ∈ revokedPubkeys remote := by
  simp only [mergedRevoked, List.map_append, List.mem_append] at h
  rcases h with h | h
  · exact Or.inl h
  · obtain ⟨r, hr, hfst⟩ := List.mem_map.mp h
    exact Or.inr (List.mem_map.mpr ⟨r, (List.mem_filter.mp hr).1, hfst⟩)

/-- C5: joining an existing list merges the remote registry first and adds
this device second, so the resulting registry keeps an entry for every
device of the remote set (none of which is revoked on either side) and
gains an entry for this device. -/
theorem join_existing_preserves_devices (localDoc remote : ApplicationKeysDoc)
    (selfPubkey : String) (now : Nat)
    (hok : ∀ d ∈ remote.devices,
      d.identityPubkey ∉ revokedPubkeys localDoc ∧
      d.identityPubkey ∉ revokedPubkeys remote) :
    (∃ e ∈ (addDeviceToExistingList localDoc remote selfPubkey now).devices,
      e.identityPubkey = selfPubkey) ∧
    (∀ d ∈ remote.devices,
      ∃ e ∈ (addDeviceToExistingList localDoc remote selfPubkey now).devices,
        e.identityPubkey = d.identityPubkey) := by
  constructor
  · exact ⟨⟨selfPubkey, now⟩, by simp [addDeviceToExistingList, addDevice], rfl⟩
  · intro d hd
    by_cases hself : d.identityPubkey = selfPubkey
    · exact ⟨⟨selfPubkey, now⟩, by simp [addDeviceToExistingList, addDevice], hself.symm⟩
    · refine ⟨d, ?_, rfl⟩
      have hnotrev : d.identityPubkey ∉ (mergedRevoked localDoc remote).map Prod.fst := by
        intro hmem
        rcases mergedRevoked_subset localDoc remote d.identityPubkey hmem with h | h
        · exact (hok d hd).1 h
        · exact (hok d hd).2 h
      have hmerge : d ∈ (mergeRemote localDoc remote).devices :=
        List.mem_filter.mpr ⟨hd, by simpa using hnotrev⟩
      simp only [addDeviceToExistingList, addDevice, List.mem_cons]
      exact Or.inr (List.mem_filter.mpr ⟨hmerge, by simpa using hself⟩)

/-- Witness for C5: a fresh second device b joins a remote registry whose
only device is a; the result keeps a and contains b. -/
theorem join_existing_preserves_devices_witness :
    (∃ e ∈ (addDeviceToExistingList ⟨[], []⟩ ⟨[⟨"a", 1⟩], []⟩ "b" 9).devices,
      e.identityPubkey = "b") ∧
    (∀ d ∈ ([⟨"a", 1⟩] : List DeviceEntry),
      ∃ e ∈ (addDeviceToExistingList ⟨[], []⟩ ⟨[⟨"a", 1⟩], []⟩ "b" 9).devices,
        e.identityPubkey = d.identityPubkey) :=
  join_existing_preserves_devices ⟨[], []⟩ ⟨[⟨"a", 1⟩], []⟩ "b" 9 (by decide)

/-- C6: a device revoked in either the local cache or the remote document,
no matter the timestamps on the conflicting entries, is revoked in the
merged result and absent from its active device set. -/
theorem revoke_wins_merge (localDoc remote : ApplicationKeysDoc) (d : String)
    (h : d ∈ revokedPubkeys localDoc ∨ d ∈ revokedPubkeys remote) :
    d ∈ revokedPubkeys (mergeRemote localDoc remote) ∧
    ∀ e ∈ (mergeRemote localDoc remote).devices, e.identityPubkey ≠ d := by
  have hd : d ∈ revokedPubkeys (mergeRemote localDoc remote) := by
    rcases h with h | h
    · simp only [revokedPubkeys, mergeRemote, mergedRevoked, List.map_append,
        List.mem_append]
      exact Or.inl h
    · by_cases hl : d ∈ localDoc.revoked.map Prod.fst
      · simp only [revokedPubkeys, mergeRemote, mergedRevoked, List.map_append,
          List.mem_append]
        exact Or.inl hl
      · obtain ⟨r, hr, hfst⟩ := List.mem_map.mp h
        simp only [revokedPubkeys, mergeRemote, mergedRevoked, List.map_append,
          List.mem_append]
        refine Or.inr (List.mem_map.mpr ⟨r, List.mem_filter.mpr ⟨hr, ?_⟩, hfst⟩)
        simpa [hfst] using hl
  refine ⟨hd, ?_⟩
  intro e he hne
  have hmem := List.mem_filter.mp he
  have hnot : e.identityPubkey ∉ (mergedRevoked localDoc remote).map Prod.fst := by
    simpa using hmem.2
  exact hnot (by simpa [revokedPubkeys, mergeRemote, hne] using hd)

/-- Witness for C6: device a is active locally and revoked remotely (with
an older revoke timestamp than the remote add); after merging, a is
revoked and not among the active devices. -/
theorem revoke_wins_merge_witness :
    "a" ∈ revokedPubkeys (mergeRemote ⟨[⟨"a", 7⟩], []⟩ ⟨[⟨"a", 7⟩, ⟨"b", 3⟩], [("a", 5)]⟩) ∧
    ∀ e ∈ (mergeRemote ⟨[⟨"a", 7⟩], []⟩ ⟨[⟨"a", 7⟩, ⟨"b", 3⟩], [("a", 5)]⟩).devices,
      e.identityPubkey ≠ "a" :=
  revoke_wins_merge ⟨[⟨"a", 7⟩], []⟩ ⟨[⟨"a", 7⟩, ⟨"b", 3⟩], [("a", 5)]⟩ "a"
    (Or.inr (by decide))

/-! ## Storage adapter (src/session/StorageAdapter.ts) -/

/-- Outcome of one underlying localForage operation: the resolved value,
or a rejection carrying an error message. -/
inductive StoreOp (α : Type)
  | ok (a : α)
  | failure (msg : String)
deriving DecidableEq, Repr

/-- LocalForageStorageAdapter.get: the underlying read runs inside
try/catch; a failure is logged with console.warn and converted into
undefined, indistinguishable from an absent key; the returned promise
never rejects. -/
def lfGet (underlying : StoreOp (Option String)) : Except String (Option String) :=
  match underlying with
  | StoreOp.ok v => Except.ok v
  | StoreOp.failure _ => Except.ok none

/-- LocalForageStorageAdapter.put: a failure is logged with console.error
and rethrown to the caller. -/
def lfPut (underlying : StoreOp Unit) : Except String Unit :=
  match underlying with
  | StoreOp.ok _ => Except.ok ()
  | StoreOp.failure msg => Except.error msg

/-- LocalForageStorageAdapter.del: a failure is logged with console.warn
and swallowed; the returned promise resolves normally. -/
def lfDel (underlying : StoreOp Unit) : Except String Unit :=
  match underlying with
  | StoreOp.ok _ => Except.ok ()
  | StoreOp.failure _ => Except.ok ()

/-- The propagation property claimed for every store operation: when the
underlying store fails, the caller receives the error. -/
def storeFailureSurfaced {α : Type} (r : Except String α) : Prop :=
  ∃ e, r = Except.error e

/-- Counterexample to C7 as stated: a failing underlying read is swallowed
by get - the caller receives undefined, exactly as for an absent key, and
no error - and a failing delete is swallowed as well; so a store read
failure during an identity load is not propagated, and the identity code
proceeds as if no identity had been stored. -/
theorem storage_error_swallowed_counterexample :
    lfGet (StoreOp.failure "disk read failed") = Except.ok none ∧
    ¬ storeFailureSurfaced (lfGet (StoreOp.failure "disk read failed")) ∧
    lfDel (StoreOp.failure "disk write failed") = Except.ok () ∧
    ¬ storeFailureSurfaced (lfDel (StoreOp.failure "disk write failed")) := by
  refine ⟨rfl, ?_, rfl, ?_⟩ <;> rintro ⟨e, he⟩ <;> simp [lfGet, lfDel] at he

/-- C7 amended: only write failures surface - put rethrows the underlying
error to the caller, while get converts a read failure into undefined (as
if the key were absent) and del resolves normally, so an unreadable store
is silently treated as empty and only an unwritable store fails the
identity operation. -/
theorem storage_error_propagation_amended (msg : String) :
    lfPut (StoreOp.failure msg) = Except.error msg ∧
    storeFailureSurfaced (lfPut (StoreOp.failure msg)) ∧
    lfGet (StoreOp.failure msg) = Except.ok none ∧
    lfDel (StoreOp.failure msg) = Except.ok () :=
  ⟨rfl, ⟨msg, rfl⟩, rfl, rfl⟩

/-- Witness for C7 amended at a concrete error message. -/
theorem storage_error_propagation_amended_witness :
    lfPut (StoreOp.failure "quota exceeded") = Except.error "quota exceeded" ∧
    storeFailureSurfaced (lfPut (StoreOp.failure "quota exceeded")) ∧
    lfGet (StoreOp.failure "quota exceeded") = Except.ok none ∧
    lfDel (StoreOp.failure "quota exceeded") = Except.ok () :=
  storage_error_propagation_amended "quota exceeded"

/-! ## Delegate send with fan-out (sendDelegateMessage of the delegate module) -/

/-- Environment of one sendDelegateMessage call: whether the delegate
session manager exists, the activation state (credentials.ownerPublicKey),
the rumor returned by sm.sendMessage over the existing sessions, whether
initiateSessionFromDelegate succeeds, the rumor returned by the retry after
initiation, and whether the sync copy to the owner (sm.sendEvent) rejects. -/
structure DelegateSendEnv where
  hasSessionManager : Bool
  ownerPublicKey : Option String
  firstSend : Option Rumor
  initiateOk : Bool
  secondSend : Option Rumor
  fanoutFails : Bool
deriving DecidableEq, Repr

/-- Observable outcome of one sendDelegateMessage call: the value the
returned promise settles with, the recipient and payload of the sync copy
when one was issued, and whether a sync-copy failure was logged. -/
structure DelegateSendOutcome where
  result : Except String Rumor
  fanoutIssued : Option (String × Rumor)
  fanoutFailureLogged : Bool
deriving Repr

/-- sendDelegateMessage from the delegate-device module.  The sync copy to
the owner is fired without await (a floating promise whose rejection is
consumed by .catch(log)), so only whether it was issued and whether its
failure was logged are observable; the returned rumor is computed before
it and independently of it, and the copy is sent only when the recipient
is not the owner, normalized to the owner pubkey. -/
def sendDelegateMessage (env : DelegateSendEnv) (recipientPublicKey : String) :
    DelegateSendOutcome :=
  if env.hasSessionManager = false then
    ⟨Except.error "Delegate device not initialized", none, false⟩
  else
    match env.ownerPublicKey with
    | none => ⟨Except.error "Delegate device not activated (no owner public key)",
        none, false⟩
    | some owner =>
      let sent : Except String Rumor :=
        match env.firstSend with
        | some r => Except.ok r
        | none =>
          if env.initiateOk = false then
            Except.error "Could not establish session with recipient"
          else
            match env.secondSend with
            | some r => Except.ok r
            | none => Except.error "Session initiated but message still failed to send"
      match sent with
      | Except.error e => ⟨Except.error e, none, false⟩
      | Except.ok r =>
        if recipientPublicKey = owner then ⟨Except.ok r, none, false⟩
        else ⟨Except.ok r, some (owner, { r with pubkey := owner }), env.fanoutFails⟩

/-- C8: whenever a delegate send to a peer distinct from the owner
succeeds, a copy normalized to the owner pubkey is issued to the owner's
own identity; a failure of that copy is only logged; and the settled
primary result is identical whether the copy fails or succeeds. -/
theorem delegate_fanout (env : DelegateSendEnv) (recipient owner : String) (r : Rumor)
    (howner : env.ownerPublicKey = some owner)
    (hres : (sendDelegateMessage env recipient).result = Except.ok r)
    (hne : recipient ≠ owner) :
    (sendDelegateMessage env recipient).fanoutIssued =
      some (owner, { r with pubkey := owner }) ∧
    (sendDelegateMessage env recipient).fanoutFailureLogged = env.fanoutFails ∧
    (sendDelegateMessage { env with fanoutFails := true } recipient).result =
      (sendDelegateMessage { env with fanoutFails := false } recipient).result := by
  obtain ⟨sm, opk, fs, io, ss, ff⟩ := env
  simp only at howner
  subst howner
  cases sm with
  | false => simp [sendDelegateMessage] at hres
  | true =>
    cases fs with
    | some r0 =>
      simp [sendDelegateMessage, hne] at hres ⊢
      subst hres
      simp
    | none =>
      cases io with
      | false => simp [sendDelegateMessage] at hres
      | true =>
        cases ss with
        | some r0 =>
          simp [sendDelegateMessage, hne] at hres ⊢
          subst hres
          simp
        | none => simp [sendDelegateMessage] at hres

/-- Witness for C8: a delegate whose existing session delivers the message
to peer issues the owner-normalized copy to owner, and its observable
result is independent of the copy failing. -/
theorem delegate_fanout_witness :
    (sendDelegateMessage
        ⟨true, some "owner", some ⟨"dev", 1, "hi", [["p", "peer"]]⟩, false, none, true⟩
        "peer").fanoutIssued =
      some ("owner", ⟨"owner", 1, "hi", [["p", "peer"]]⟩) ∧
    (sendDelegateMessage
        ⟨true, some "owner", some ⟨"dev", 1, "hi", [["p", "peer"]]⟩, false, none, true⟩
        "peer").fanoutFailureLogged = true ∧
    (sendDelegateMessage
        ⟨true, some "owner", some ⟨"dev", 1, "hi", [["p", "peer"]]⟩, false, none, true⟩
        "peer").result =
      (sendDelegateMessage
        ⟨true, some "owner", some ⟨"dev", 1, "hi", [["p", "peer"]]⟩, false, none, false⟩
        "peer").result := by
  have h := delegate_fanout
    ⟨true, some "owner", some ⟨"dev", 1, "hi", [["p", "peer"]]⟩, false, none, true⟩
    "peer" "owner" ⟨"dev", 1, "hi", [["p", "peer"]]⟩ rfl rfl (by decide)
  exact ⟨h.1, h.2.1, h.2.2⟩

/-! ## Chat initialization state machine (useChatInitState) -/

/-- The states of useChatInitState. -/
inductive ChatInitStatus
  | loading
  | offline
  | hasLocal
  | checkingRemote
  | needsNew
  | needsLink (remoteDevices : Nat)
  | ready
deriving DecidableEq, Repr

/-- The 5000 ms EOSE fallback of useChatInitState. -/
def EOSE_TIMEOUT_MS : Nat := 5000

/-- Environment of one checkState run: the persisted chat-initialized
flag, whether local chat data exists, connectivity, the arrival times of
matching remote device events, and the EOSE arrival time (none when the
transport never signals EOSE). -/
structure ChatInitEnv where
  chatInitializedFlag : Bool
  hasLocalData : Bool
  online : Bool
  eventTimes : List Nat
  eoseTime : Option Nat
deriving DecidableEq, Repr

/-- Whether this run of checkState enters the checking_remote state. -/
def entersCheckingRemote (env : ChatInitEnv) : Prop :=
  env.chatInitializedFlag = false ∧ env.hasLocalData = false ∧ env.online = true

/-- Final settled state and settle time of one checkState run of
useChatInitState.  An EOSE arriving strictly before the 5 s fallback runs
the eose handler (needs_link when events were counted, else needs_new);
otherwise the timeout handler marks eoseReceived, stops the subscription
and settles on needs_new, and a later EOSE is ignored by its guard. -/
def chatInitOutcome (env : ChatInitEnv) : ChatInitStatus × Nat :=
  if env.chatInitializedFlag then (ChatInitStatus.ready, 0)
  else if env.hasLocalData then (ChatInitStatus.hasLocal, 0)
  else if env.online = false then (ChatInitStatus.offline, 0)
  else
    match env.eoseTime with
    | some te =>
      if te < EOSE_TIMEOUT_MS then
        let n := (env.eventTimes.filter (fun t => t ≤ te)).length
        (if n = 0 then ChatInitStatus.needsNew else ChatInitStatus.needsLink n, te)
      else (ChatInitStatus.needsNew, EOSE_TIMEOUT_MS)
    | none => (ChatInitStatus.needsNew, EOSE_TIMEOUT_MS)

/-- C9: every run that enters checking_remote settles, within the 5 s
EOSE fallback, on one of the terminal outcomes needs_new or needs_link -
even when neither events nor an EOSE signal ever arrive. -/
theorem checking_remote_terminates (env : ChatInitEnv)
    (h : entersCheckingRemote env) :
    ((chatInitOutcome env).1 = ChatInitStatus.needsNew ∨
      ∃ n, (chatInitOutcome env).1 = ChatInitStatus.needsLink n) ∧
    (chatInitOutcome env).2 ≤ EOSE_TIMEOUT_MS := by
  obtain ⟨h1, h2, h3⟩ := h
  unfold chatInitOutcome
  rw [h1, h2, h3]
  simp only [Bool.false_eq_true, if_false]
  cases hte : env.eoseTime with
  | none => simp
  | some te =>
    by_cases hlt : te < EOSE_TIMEOUT_MS
    · simp only [if_pos hlt]
      constructor
      · by_cases hn : (env.eventTimes.filter (fun t => t ≤ te)).length = 0
        · left
          simp [hn]
        · right
          exact ⟨(env.eventTimes.filter (fun t => t ≤ te)).length, by simp [hn]⟩
      · simpa using Nat.le_of_lt hlt
    · simp [hlt]

/-- Witness for C9: a run with no local data, no events and no EOSE
settles on needs_new at exactly the 5 s fallback. -/
theorem checking_remote_terminates_witness :
    ((chatInitOutcome ⟨false, false, true, [], none⟩).1 = ChatInitStatus.needsNew ∨
      ∃ n, (chatInitOutcome ⟨false, false, true, [], none⟩).1 =
        ChatInitStatus.needsLink n) ∧
    (chatInitOutcome ⟨false, false, true, [], none⟩).2 ≤ EOSE_TIMEOUT_MS :=
  checking_remote_terminates ⟨false, false, true, [], none⟩ ⟨rfl, rfl, rfl⟩

end Iris
